import Mathlib

/-!
Shallow embedding of `homeassistant/components/pi_hole/__init__.py`.

The module glues a Pi-hole HTTP client (the external `hole` library) into the
Home Assistant config-entry lifecycle.  We embed:

  * the configuration-entry data mapping (`entry.data`) as a partial map from
    string keys to Python values (`ConfVal`);
  * the `Hole` client object as a record of the constructor arguments the
    module passes to it;
  * the `DataUpdateCoordinator` as a record of the name, update method and
    update interval the module passes to it;
  * `async_update_data` as a pure function of the environment behaviour of the
    two awaited client calls (`api.get_data()` / `api.get_versions()`) and of
    the cache value `api.data` they leave behind;
  * `async_setup_entry` / `async_unload_entry` as pure functions returning an
    outcome record: the effects performed (entry-data update, storage under
    `hass.data[DOMAIN][entry.entry_id]`, platform forwarding), an ordered
    event trace, and the control-flow result (normal return or raised
    exception, by exception type).
-/

/-- A Python value stored in a config entry's data mapping: the pi_hole entry
holds strings (name, host, location, api key) and booleans (ssl, verify_ssl). -/
inductive ConfVal
  | str (s : String)
  | bool (b : Bool)
deriving DecidableEq, Repr

/-- Python truthiness of a config value (`if self.api.tls:`): a string is
truthy iff non-empty, a bool is itself. -/
def ConfVal.truthy : ConfVal → Bool
  | .str s => !(s == "")
  | .bool b => b

/-- Python `str()` of a config value, as used by f-string interpolation. -/
def ConfVal.pyStr : ConfVal → String
  | .str s => s
  | .bool b => if b then "True" else "False"

/-- `entry.data`: a partial map from string keys to values.  `none` means the
key is absent (`k not in entry.data`). -/
abbrev EntryData := String → Option ConfVal

/-- Host-framework constant `homeassistant.const.CONF_NAME`. -/
def CONF_NAME : String := "name"

/-- Host-framework constant `homeassistant.const.CONF_HOST`. -/
def CONF_HOST : String := "host"

/-- Host-framework constant `homeassistant.const.CONF_SSL`. -/
def CONF_SSL : String := "ssl"

/-- Host-framework constant `homeassistant.const.CONF_VERIFY_SSL`. -/
def CONF_VERIFY_SSL : String := "verify_ssl"

/-- Host-framework constant `homeassistant.const.CONF_LOCATION`. -/
def CONF_LOCATION : String := "location"

/-- Host-framework constant `homeassistant.const.CONF_API_KEY`. -/
def CONF_API_KEY : String := "api_key"

/-- Modelled from the spec: the component constant `DOMAIN` from
`pi_hole/const.py`, which is not under src/; the integration domain slug. -/
def DOMAIN : String := "pi_hole"

/-- Modelled from the spec: the obsolete option key `CONF_STATISTICS_ONLY`
from `pi_hole/const.py`, which is not under src/. -/
def CONF_STATISTICS_ONLY : String := "statistics_only"

/-- Modelled from the spec: the storage key `DATA_KEY_API` from
`pi_hole/const.py`, which is not under src/. -/
def DATA_KEY_API : String := "api"

/-- Modelled from the spec: the storage key `DATA_KEY_COORDINATOR` from
`pi_hole/const.py`, which is not under src/. -/
def DATA_KEY_COORDINATOR : String := "coordinator"

/-- Modelled from the spec: the fixed polling interval
`MIN_TIME_BETWEEN_UPDATES` from `pi_hole/const.py`, which is not under src/;
the spec only says the API is polled on a timer, so the concrete value (here
in seconds) is irrelevant to the claims: only that it is this one constant. -/
def MIN_TIME_BETWEEN_UPDATES : Nat := 300

/-- The four entity platforms of the module-level `PLATFORMS` list. -/
inductive Platform
  | binary_sensor
  | sensor
  | switch
  | update
deriving DecidableEq, Repr

/-- `PLATFORMS = [Platform.BINARY_SENSOR, Platform.SENSOR, Platform.SWITCH,
Platform.UPDATE]`. -/
def PLATFORMS : List Platform :=
  [Platform.binary_sensor, Platform.sensor, Platform.switch, Platform.update]

/-- The aiohttp client session obtained from
`async_get_clientsession(hass, verify_tls)`, identified by its verify flag. -/
structure Session where
  verify : ConfVal
deriving DecidableEq, Repr

/-- The `Hole` client object as constructed by `async_setup_entry`:
`Hole(host, session, location=location, tls=use_tls, api_token=api_key)`.
Its mutable fetch cache (`api.data`, `api.versions`) lives in the external
library and is modelled by `ApiBehavior` below. -/
structure Hole where
  host : ConfVal
  session : Session
  location : ConfVal
  tls : ConfVal
  api_token : Option ConfVal
deriving DecidableEq, Repr

/-- A Python object, as far as the module inspects one: the only test
performed is `isinstance(api.data, dict)`. -/
inductive PyObj
  | dict (entries : List (String × String))
  | list (items : List String)
  | pyNone
  | str (s : String)
deriving DecidableEq, Repr

/-- `isinstance(x, dict)`. -/
def PyObj.isDict : PyObj → Bool
  | .dict _ => true
  | _ => false

/-- Outcome of one awaited client call: returns normally or raises
`HoleError` with message `msg` (its `str()`). -/
inductive FetchResult
  | ok
  | holeErr (msg : String)
deriving DecidableEq, Repr

/-- Environment behaviour of the external `hole` client during one update
cycle: the outcome of `await api.get_data()`, the outcome of
`await api.get_versions()` (when reached), and the value the cache `api.data`
holds after the calls. -/
structure ApiBehavior where
  get_data : FetchResult
  get_versions : FetchResult
  data : PyObj
deriving DecidableEq, Repr

/-- Control-flow result of `async_update_data`: normal return, raised
`UpdateFailed msg`, or raised `ConfigEntryAuthFailed`. -/
inductive UpdateResult
  | success
  | updateFailed (msg : String)
  | authFailed
deriving DecidableEq, Repr

/-- The inner coroutine `async_update_data` of `async_setup_entry`:
try `await api.get_data()`; `await api.get_versions()`; on `HoleError err`
raise `UpdateFailed(f"Failed to communicate with API: {err}")`; then if
`api.data` is not a dict raise `ConfigEntryAuthFailed`. -/
def async_update_data (env : ApiBehavior) : UpdateResult :=
  match env.get_data with
  | .holeErr err => .updateFailed ("Failed to communicate with API: " ++ err)
  | .ok =>
    match env.get_versions with
    | .holeErr err => .updateFailed ("Failed to communicate with API: " ++ err)
    | .ok =>
      if env.data.isDict then .success else .authFailed

/-- The `DataUpdateCoordinator` as constructed by `async_setup_entry`:
`DataUpdateCoordinator(hass, _LOGGER, name=name, update_method=async_update_data,
update_interval=MIN_TIME_BETWEEN_UPDATES)`. -/
structure DataUpdateCoordinator where
  name : ConfVal
  update_method : ApiBehavior → UpdateResult
  update_interval : Nat

/-- A value stored under `hass.data[DOMAIN][entry.entry_id]`. -/
inductive StoredVal
  | api (h : Hole)
  | coordinator (c : DataUpdateCoordinator)

/-- The per-entry mapping `hass.data[DOMAIN][entry.entry_id]`. -/
abbrev EntryStore := String → Option StoredVal

/-- The domain-level mapping `hass.data[DOMAIN]`, keyed by `entry.entry_id`. -/
abbrev DomainData := String → Option EntryStore

/-- Effect events of `async_setup_entry`, in execution order. -/
inductive SetupEvent
  | updatedEntry
  | createdApi
  | storedData
  | awaitedFirstRefresh
  | forwardedPlatforms
deriving DecidableEq, Repr

/-- Control-flow result of `async_setup_entry`: returned `True`, or raised
`KeyError k` (a bracket lookup `entry.data[k]` on a missing key), raised
`ConfigEntryAuthFailed` (directly, or propagated out of the first refresh),
or raised `ConfigEntryNotReady` (the framework wrapping of `UpdateFailed`
inside `async_config_entry_first_refresh`). -/
inductive SetupResult
  | success
  | raiseKeyError (k : String)
  | raiseConfigEntryAuthFailed
  | raiseConfigEntryNotReady (msg : String)
deriving DecidableEq, Repr

/-- Outcome record of `async_setup_entry`: the data passed to
`async_update_entry` if that call was made, the mapping assigned to
`hass.data[DOMAIN][entry.entry_id]` if that assignment was reached, the
platform list forwarded if forwarding was reached, the ordered event trace,
and the control-flow result. -/
structure SetupOutcome where
  updatedEntryData : Option EntryData
  stored : Option EntryStore
  forwarded : Option (List Platform)
  events : List SetupEvent
  result : SetupResult

/-- Outcome of a failed bracket lookup `entry.data[k]` at the top of
`async_setup_entry`: `KeyError` before any effect. -/
def keyErrorOutcome (k : String) : SetupOutcome :=
  { updatedEntryData := none, stored := none, forwarded := none,
    events := [], result := .raiseKeyError k }

/-- `async_setup_entry(hass, entry)` as a pure function of `entry.data` and of
the client behaviour `env` seen by the first refresh.  Follows the source
line by line: read the five required keys with bracket lookups (`KeyError`
on the first missing one) and `api_key` with `.get`; if
`CONF_STATISTICS_ONLY` is present, update the entry with a copy of the data
with that key popped; if `CONF_API_KEY` is not in `entry.data`, raise
`ConfigEntryAuthFailed`; build the session, the `Hole` client and the
coordinator; store `{DATA_KEY_API: api, DATA_KEY_COORDINATOR: coordinator}`
under `hass.data[DOMAIN][entry.entry_id]`; await
`coordinator.async_config_entry_first_refresh()` (the framework re-raises
`UpdateFailed` as `ConfigEntryNotReady` and lets `ConfigEntryAuthFailed`
propagate); forward the entry to `PLATFORMS`; return `True`. -/
def async_setup_entry (data : EntryData) (env : ApiBehavior) : SetupOutcome :=
  match data CONF_NAME, data CONF_HOST, data CONF_SSL,
        data CONF_VERIFY_SSL, data CONF_LOCATION with
  | none, _, _, _, _ => keyErrorOutcome CONF_NAME
  | _, none, _, _, _ => keyErrorOutcome CONF_HOST
  | _, _, none, _, _ => keyErrorOutcome CONF_SSL
  | _, _, _, none, _ => keyErrorOutcome CONF_VERIFY_SSL
  | _, _, _, _, none => keyErrorOutcome CONF_LOCATION
  | some name, some host, some use_tls, some verify_tls, some location =>
    let api_key := data CONF_API_KEY
    let statsPresent := (data CONF_STATISTICS_ONLY).isSome
    let data2 : EntryData :=
      if statsPresent then
        fun k => if k = CONF_STATISTICS_ONLY then none else data k
      else data
    let updated : Option EntryData := if statsPresent then some data2 else none
    let ev0 : List SetupEvent := if statsPresent then [.updatedEntry] else []
    if (data2 CONF_API_KEY).isNone then
      { updatedEntryData := updated, stored := none, forwarded := none,
        events := ev0, result := .raiseConfigEntryAuthFailed }
    else
      let session : Session := { verify := verify_tls }
      let api : Hole :=
        { host := host, session := session, location := location,
          tls := use_tls, api_token := api_key }
      let coordinator : DataUpdateCoordinator :=
        { name := name, update_method := async_update_data,
          update_interval := MIN_TIME_BETWEEN_UPDATES }
      let stored : EntryStore := fun k =>
        if k = DATA_KEY_API then some (.api api)
        else if k = DATA_KEY_COORDINATOR then some (.coordinator coordinator)
        else none
      let ev1 := ev0 ++ [SetupEvent.createdApi, SetupEvent.storedData]
      match coordinator.update_method env with
      | .updateFailed msg =>
        { updatedEntryData := updated, stored := some stored, forwarded := none,
          events := ev1 ++ [.awaitedFirstRefresh],
          result := .raiseConfigEntryNotReady msg }
      | .authFailed =>
        { updatedEntryData := updated, stored := some stored, forwarded := none,
          events := ev1 ++ [.awaitedFirstRefresh],
          result := .raiseConfigEntryAuthFailed }
      | .success =>
        { updatedEntryData := updated, stored := some stored,
          forwarded := some PLATFORMS,
          events := ev1 ++ [.awaitedFirstRefresh, .forwardedPlatforms],
          result := .success }

/-- Control-flow result of `async_unload_entry`: returned the bool, or raised
`KeyError` from `hass.data[DOMAIN].pop(entry.entry_id)` on an absent key. -/
inductive UnloadResult
  | ok (b : Bool)
  | keyError
deriving DecidableEq, Repr

/-- Outcome record of `async_unload_entry`: the platform list passed to
`async_unload_platforms`, the control-flow result, and the domain mapping
`hass.data[DOMAIN]` afterwards. -/
structure UnloadOutcome where
  platformsRequested : List Platform
  result : UnloadResult
  domainData : DomainData

/-- `async_unload_entry(hass, entry)` as a pure function of the prior
`hass.data[DOMAIN]`, the entry id, and the bool `unload_ok` returned by
`hass.config_entries.async_unload_platforms(entry, PLATFORMS)`: if
`unload_ok`, pop `entry.entry_id` from `hass.data[DOMAIN]`; return
`unload_ok`. -/
def async_unload_entry (domainData : DomainData) (entry_id : String)
    (unload_ok : Bool) : UnloadOutcome :=
  if unload_ok then
    match domainData entry_id with
    | none =>
      { platformsRequested := PLATFORMS, result := .keyError,
        domainData := domainData }
    | some _ =>
      { platformsRequested := PLATFORMS, result := .ok true,
        domainData := fun k => if k = entry_id then none else domainData k }
  else
    { platformsRequested := PLATFORMS, result := .ok false,
      domainData := domainData }

/-- The `DeviceInfo` record returned by `PiHoleEntity.device_info`:
identifiers (a one-element set of `(DOMAIN, server_unique_id)` pairs,
modelled as a list), name, manufacturer and configuration URL. -/
structure DeviceInfo where
  identifiers : List (String × String)
  name : String
  manufacturer : String
  configuration_url : String
deriving DecidableEq, Repr

/-- The fields `PiHoleEntity.__init__` stores: the `Hole` client, the
coordinator held by `CoordinatorEntity`, the name and the server unique id. -/
structure PiHoleEntity where
  api : Hole
  coordinator : DataUpdateCoordinator
  _name : String
  _server_unique_id : String

/-- The `device_info` property: `config_url` is
`f"https://{self.api.host}/{self.api.location}"` when `self.api.tls` is
truthy, the `http` variant otherwise; identifiers is
`{(DOMAIN, self._server_unique_id)}`; name `self._name`; manufacturer
`"Pi-hole"`. -/
def PiHoleEntity.device_info (e : PiHoleEntity) : DeviceInfo :=
  let config_url :=
    if e.api.tls.truthy then
      "https://" ++ e.api.host.pyStr ++ "/" ++ e.api.location.pyStr
    else
      "http://" ++ e.api.host.pyStr ++ "/" ++ e.api.location.pyStr
  { identifiers := [(DOMAIN, e._server_unique_id)],
    name := e._name,
    manufacturer := "Pi-hole",
    configuration_url := config_url }

/-! ### Helper lemmas (shared across claims) -/

/-- If either fetch raises `HoleError`, the update raises `UpdateFailed`
wrapping the error message. -/
theorem update_data_holeErr (env : ApiBehavior) (e : String)
    (h : env.get_data = .holeErr e ∨
         env.get_data = .ok ∧ env.get_versions = .holeErr e) :
    async_update_data env =
      .updateFailed ("Failed to communicate with API: " ++ e) := by
  unfold async_update_data
  rcases h with h | ⟨h1, h2⟩
  · rw [h]
  · rw [h1, h2]

/-- `async_update_data` raises `ConfigEntryAuthFailed` exactly when both
fetches return and `api.data` is not a dict. -/
theorem update_data_auth_iff (env : ApiBehavior) :
    async_update_data env = .authFailed ↔
      env.get_data = .ok ∧ env.get_versions = .ok ∧ env.data.isDict = false := by
  unfold async_update_data
  rcases env with ⟨gd, gv, d⟩
  cases gd <;> cases gv <;> simp

/-- When both fetches return and `api.data` is a dict, the update succeeds. -/
theorem update_data_success (env : ApiBehavior)
    (h1 : env.get_data = .ok) (h2 : env.get_versions = .ok)
    (h3 : env.data.isDict = true) :
    async_update_data env = .success := by
  unfold async_update_data
  rw [h1, h2, h3]
  rfl

/-- When `CONF_API_KEY` is absent from `entry.data` (and the five required
keys are present, so the bracket lookups succeed), `async_setup_entry` raises
`ConfigEntryAuthFailed` and performs neither storage nor forwarding. -/
theorem setup_missing_api_key (data : EntryData) (env : ApiBehavior)
    (hn : (data CONF_NAME).isSome) (hh : (data CONF_HOST).isSome)
    (hs : (data CONF_SSL).isSome) (hv : (data CONF_VERIFY_SSL).isSome)
    (hl : (data CONF_LOCATION).isSome) (hk : data CONF_API_KEY = none) :
    (async_setup_entry data env).result = .raiseConfigEntryAuthFailed ∧
    (async_setup_entry data env).stored = none ∧
    (async_setup_entry data env).forwarded = none := by
  rcases Option.isSome_iff_exists.mp hn with ⟨name, hn⟩
  rcases Option.isSome_iff_exists.mp hh with ⟨host, hh⟩
  rcases Option.isSome_iff_exists.mp hs with ⟨ssl, hs⟩
  rcases Option.isSome_iff_exists.mp hv with ⟨vs, hv⟩
  rcases Option.isSome_iff_exists.mp hl with ⟨loc, hl⟩
  unfold async_setup_entry
  rw [hn, hh, hs, hv, hl]
  simp only
  have hne : CONF_API_KEY ≠ CONF_STATISTICS_ONLY := by decide
  by_cases hst : (data CONF_STATISTICS_ONLY).isSome <;>
    simp [hst, hne, hk]

/-! ### Concrete inputs for witnesses and counterexamples -/

/-- An environment in which `api.get_data()` raises `HoleError("boom")`. -/
def envGetDataErr : ApiBehavior :=
  { get_data := .holeErr "boom", get_versions := .ok, data := .dict [] }

/-- An environment in which both fetches succeed and `api.data` ends up a
string (not a dict). -/
def envNotDict : ApiBehavior :=
  { get_data := .ok, get_versions := .ok, data := .str "[]" }

/-- An environment in which both fetches succeed and `api.data` is a dict. -/
def envAllOk : ApiBehavior :=
  { get_data := .ok, get_versions := .ok,
    data := .dict [("status", "enabled")] }

/-- A config entry data mapping with the five required keys but no API key. -/
def entryNoApiKey : EntryData := fun k =>
  if k = CONF_NAME then some (.str "Pi-hole")
  else if k = CONF_HOST then some (.str "1.2.3.4")
  else if k = CONF_SSL then some (.bool false)
  else if k = CONF_VERIFY_SSL then some (.bool true)
  else if k = CONF_LOCATION then some (.str "admin")
  else none

/-- Like `entryNoApiKey` but with the obsolete statistics-only key present
(and still no API key). -/
def entryNoApiKeyStats : EntryData := fun k =>
  if k = CONF_STATISTICS_ONLY then some (.bool true)
  else entryNoApiKey k

/-- A complete config entry data mapping, API key included. -/
def entryFull : EntryData := fun k =>
  if k = CONF_API_KEY then some (.str "deadbeef")
  else entryNoApiKey k

/-- A complete config entry data mapping with the obsolete statistics-only
key present. -/
def entryFullStats : EntryData := fun k =>
  if k = CONF_STATISTICS_ONLY then some (.bool true)
  else entryFull k

/-! ### Claims -/

/-- C1: for every update cycle, if `api.get_data()` or `api.get_versions()`
raises `HoleError`, `async_update_data` raises `UpdateFailed` wrapping the
underlying error, and does not raise `ConfigEntryAuthFailed`. -/
theorem C1_hole_error_raises_update_failed (env : ApiBehavior) (e : String)
    (h : env.get_data = .holeErr e ∨
         env.get_data = .ok ∧ env.get_versions = .holeErr e) :
    async_update_data env =
      .updateFailed ("Failed to communicate with API: " ++ e) ∧
    async_update_data env ≠ .authFailed := by
  have hu := update_data_holeErr env e h
  exact ⟨hu, by rw [hu]; simp⟩

/-- C1 witness: at the concrete environment whose `get_data` raises
`HoleError("boom")`, the update raises the wrapped `UpdateFailed`. -/
theorem C1_witness :
    async_update_data envGetDataErr =
      .updateFailed ("Failed to communicate with API: " ++ "boom") ∧
    async_update_data envGetDataErr ≠ .authFailed :=
  C1_hole_error_raises_update_failed envGetDataErr "boom" (Or.inl rfl)

/-- C2: `async_update_data` raises `ConfigEntryAuthFailed` iff both fetches
complete without `HoleError` and `api.data` is not a dict; when both calls
succeed and `api.data` is a dict, it returns normally. -/
theorem C2_auth_failed_iff_not_dict (env : ApiBehavior) :
    (async_update_data env = .authFailed ↔
       env.get_data = .ok ∧ env.get_versions = .ok ∧
       env.data.isDict = false) ∧
    (env.get_data = .ok → env.get_versions = .ok → env.data.isDict = true →
       async_update_data env = .success) :=
  ⟨update_data_auth_iff env, update_data_success env⟩

/-- C2 witness: at a concrete environment with both fetches succeeding and a
non-dict `api.data`, the update raises `ConfigEntryAuthFailed`; with a dict
`api.data` it succeeds. -/
theorem C2_witness :
    async_update_data envNotDict = .authFailed ∧
    async_update_data envAllOk = .success :=
  ⟨(C2_auth_failed_iff_not_dict envNotDict).1.mpr ⟨rfl, rfl, rfl⟩,
   (C2_auth_failed_iff_not_dict envAllOk).2 rfl rfl rfl⟩

/-- C3 counterexample: the claim says a config entry with host, TLS flag,
verify flag and location path but no API key is still set up; at the concrete
entry `entryNoApiKey` (which also carries the name key, so no bracket lookup
fails first), `async_setup_entry` instead raises `ConfigEntryAuthFailed` and
neither stores the client/coordinator nor forwards any platform. -/
theorem C3_counterexample :
    (async_setup_entry entryNoApiKey envAllOk).result =
      .raiseConfigEntryAuthFailed ∧
    (async_setup_entry entryNoApiKey envAllOk).result ≠ .success ∧
    (async_setup_entry entryNoApiKey envAllOk).stored = none ∧
    (async_setup_entry entryNoApiKey envAllOk).forwarded = none := by
  refine ⟨rfl, by decide, rfl, rfl⟩

/-- C3 (amended): the API key is required, not optional: for every config
entry whose data contains name, host, TLS flag, verify flag and location
path but no API key, `async_setup_entry` raises `ConfigEntryAuthFailed`
(starting re-authentication) instead of setting up the integration: nothing
is stored and no platform is forwarded. -/
theorem C3_missing_api_key_fails_setup (data : EntryData) (env : ApiBehavior)
    (hn : (data CONF_NAME).isSome) (hh : (data CONF_HOST).isSome)
    (hs : (data CONF_SSL).isSome) (hv : (data CONF_VERIFY_SSL).isSome)
    (hl : (data CONF_LOCATION).isSome) (hk : data CONF_API_KEY = none) :
    (async_setup_entry data env).result = .raiseConfigEntryAuthFailed ∧
    (async_setup_entry data env).stored = none ∧
    (async_setup_entry data env).forwarded = none :=
  setup_missing_api_key data env hn hh hs hv hl hk

/-- C3 witness: the amended theorem applied at a concrete key-less entry that
also carries the obsolete statistics-only key. -/
theorem C3_witness :
    (async_setup_entry entryNoApiKeyStats envAllOk).result =
      .raiseConfigEntryAuthFailed ∧
    (async_setup_entry entryNoApiKeyStats envAllOk).stored = none ∧
    (async_setup_entry entryNoApiKeyStats envAllOk).forwarded = none :=
  C3_missing_api_key_fails_setup entryNoApiKeyStats envAllOk
    (by decide) (by decide) (by decide) (by decide) (by decide) (by decide)

/-- C4: authentication failures are surfaced by raising
`ConfigEntryAuthFailed`: `async_setup_entry` raises it when `CONF_API_KEY`
is absent from `entry.data` (the required bracket lookups succeeding), and
`async_update_data` raises it exactly when the fetches complete and
`api.data` is not a dict, so no other exception type signals an
authentication failure. -/
theorem C4_auth_surfaced_via_config_entry_auth_failed :
    (∀ (data : EntryData) (env : ApiBehavior),
       (data CONF_NAME).isSome → (data CONF_HOST).isSome →
       (data CONF_SSL).isSome → (data CONF_VERIFY_SSL).isSome →
       (data CONF_LOCATION).isSome → data CONF_API_KEY = none →
       (async_setup_entry data env).result = .raiseConfigEntryAuthFailed) ∧
    (∀ env : ApiBehavior,
       async_update_data env = .authFailed ↔
         env.get_data = .ok ∧ env.get_versions = .ok ∧
         env.data.isDict = false) :=
  ⟨fun data env hn hh hs hv hl hk =>
     (setup_missing_api_key data env hn hh hs hv hl hk).1,
   update_data_auth_iff⟩

/-- C4 witness: both conjuncts instantiated at concrete inputs: a key-less
entry makes setup raise `ConfigEntryAuthFailed`, and a non-dict `api.data`
makes the update raise `ConfigEntryAuthFailed`. -/
theorem C4_witness :
    (async_setup_entry entryNoApiKey envNotDict).result =
      .raiseConfigEntryAuthFailed ∧
    async_update_data envNotDict = .authFailed :=
  ⟨C4_auth_surfaced_via_config_entry_auth_failed.1 entryNoApiKey envNotDict
     (by decide) (by decide) (by decide) (by decide) (by decide) rfl,
   (C4_auth_surfaced_via_config_entry_auth_failed.2 envNotDict).mpr
     ⟨rfl, rfl, rfl⟩⟩

/-- The data passed to `async_update_entry` by `async_setup_entry` is the
entry data with `CONF_STATISTICS_ONLY` popped when that key is present, and
no update call is made otherwise (given the required bracket lookups
succeed). -/
theorem setup_updatedEntryData (data : EntryData) (env : ApiBehavior)
    (hn : (data CONF_NAME).isSome) (hh : (data CONF_HOST).isSome)
    (hs : (data CONF_SSL).isSome) (hv : (data CONF_VERIFY_SSL).isSome)
    (hl : (data CONF_LOCATION).isSome) :
    (async_setup_entry data env).updatedEntryData =
      if (data CONF_STATISTICS_ONLY).isSome then
        some (fun k => if k = CONF_STATISTICS_ONLY then none else data k)
      else none := by
  rcases Option.isSome_iff_exists.mp hn with ⟨name, hn⟩
  rcases Option.isSome_iff_exists.mp hh with ⟨host, hh⟩
  rcases Option.isSome_iff_exists.mp hs with ⟨ssl, hs⟩
  rcases Option.isSome_iff_exists.mp hv with ⟨vs, hv⟩
  rcases Option.isSome_iff_exists.mp hl with ⟨loc, hl⟩
  unfold async_setup_entry
  rw [hn, hh, hs, hv, hl]
  cases hst : (data CONF_STATISTICS_ONLY).isSome <;> simp [hst]
  · split
    · rfl
    · cases hres : async_update_data env <;> simp [hres]
  · split
    · rfl
    · cases hres : async_update_data env <;> simp [hres]

/-- C5: when `CONF_STATISTICS_ONLY` is present in `entry.data`,
`async_setup_entry` updates the entry with a copy of the data in which
exactly that key has been removed and every other key/value pair is
unchanged; when the key is absent, the entry data is not updated at all. -/
theorem C5_statistics_only_popped (data : EntryData) (env : ApiBehavior)
    (hn : (data CONF_NAME).isSome) (hh : (data CONF_HOST).isSome)
    (hs : (data CONF_SSL).isSome) (hv : (data CONF_VERIFY_SSL).isSome)
    (hl : (data CONF_LOCATION).isSome) :
    ((data CONF_STATISTICS_ONLY).isSome →
       ∃ d2 : EntryData,
         (async_setup_entry data env).updatedEntryData = some d2 ∧
         d2 CONF_STATISTICS_ONLY = none ∧
         ∀ k, k ≠ CONF_STATISTICS_ONLY → d2 k = data k) ∧
    (data CONF_STATISTICS_ONLY = none →
       (async_setup_entry data env).updatedEntryData = none) := by
  have h := setup_updatedEntryData data env hn hh hs hv hl
  constructor
  · intro hst
    rw [h]
    simp only [hst, if_true]
    refine ⟨_, rfl, by simp, fun k hk => by simp [hk]⟩
  · intro hst
    rw [h]
    simp [hst]

/-- C5 witness: at a concrete full entry carrying the statistics-only key the
update removes exactly that key; at the same entry without it no update is
made. -/
theorem C5_witness :
    (∃ d2 : EntryData,
       (async_setup_entry entryFullStats envAllOk).updatedEntryData =
         some d2 ∧
       d2 CONF_STATISTICS_ONLY = none ∧
       ∀ k, k ≠ CONF_STATISTICS_ONLY → d2 k = entryFullStats k) ∧
    (async_setup_entry entryFull envAllOk).updatedEntryData = none :=
  ⟨(C5_statistics_only_popped entryFullStats envAllOk
      (by decide) (by decide) (by decide) (by decide) (by decide)).1
      (by decide),
   (C5_statistics_only_popped entryFull envAllOk
      (by decide) (by decide) (by decide) (by decide) (by decide)).2
      (by decide)⟩

/-- C6: `async_unload_entry` returns the boolean result of unloading the
platforms, and removes `hass.data[DOMAIN][entry.entry_id]` iff that result is
true; on failure the stored mapping is left unchanged (stated for an entry
that is actually loaded, i.e. present in `hass.data[DOMAIN]`). -/
theorem C6_unload_pops_iff_ok (domainData : DomainData) (entry_id : String)
    (unload_ok : Bool) (hpresent : (domainData entry_id).isSome) :
    (async_unload_entry domainData entry_id unload_ok).result =
      .ok unload_ok ∧
    (unload_ok = true →
       (async_unload_entry domainData entry_id unload_ok).domainData
           entry_id = none ∧
       ∀ k, k ≠ entry_id →
         (async_unload_entry domainData entry_id unload_ok).domainData k =
           domainData k) ∧
    (unload_ok = false →
       ∀ k,
         (async_unload_entry domainData entry_id unload_ok).domainData k =
           domainData k) := by
  rcases Option.isSome_iff_exists.mp hpresent with ⟨store, hstore⟩
  cases unload_ok <;> simp [async_unload_entry, hstore]
  exact fun k hk => by simp [hk]

/-- A domain mapping holding a single loaded entry `"e1"`. -/
def domainDataOne : DomainData := fun k =>
  if k = "e1" then some (fun _ => none) else none

/-- C6 witness: at the concrete one-entry domain mapping, a successful unload
returns true and removes the entry, and a failed unload returns false and
leaves it in place. -/
theorem C6_witness :
    (async_unload_entry domainDataOne "e1" true).result = .ok true ∧
    (async_unload_entry domainDataOne "e1" true).domainData "e1" = none ∧
    (async_unload_entry domainDataOne "e1" false).result = .ok false ∧
    (async_unload_entry domainDataOne "e1" false).domainData "e1" =
      domainDataOne "e1" :=
  ⟨(C6_unload_pops_iff_ok domainDataOne "e1" true (by simp [domainDataOne])).1,
   ((C6_unload_pops_iff_ok domainDataOne "e1" true
       (by simp [domainDataOne])).2.1 rfl).1,
   (C6_unload_pops_iff_ok domainDataOne "e1" false
       (by simp [domainDataOne])).1,
   (C6_unload_pops_iff_ok domainDataOne "e1" false
       (by simp [domainDataOne])).2.2 rfl "e1"⟩

/-- C7: `device_info` is determined by the stored fields: the configuration
URL is the `https` URL of host and location when `api.tls` is truthy and the
`http` one otherwise; identifiers is the single `(DOMAIN, server_unique_id)`
pair; name is the stored name; manufacturer is `"Pi-hole"`. -/
theorem C7_device_info_deterministic (e : PiHoleEntity) :
    (e.api.tls.truthy = true →
       (PiHoleEntity.device_info e).configuration_url =
         "https://" ++ e.api.host.pyStr ++ "/" ++ e.api.location.pyStr) ∧
    (e.api.tls.truthy = false →
       (PiHoleEntity.device_info e).configuration_url =
         "http://" ++ e.api.host.pyStr ++ "/" ++ e.api.location.pyStr) ∧
    (PiHoleEntity.device_info e).identifiers =
      [(DOMAIN, e._server_unique_id)] ∧
    (PiHoleEntity.device_info e).name = e._name ∧
    (PiHoleEntity.device_info e).manufacturer = "Pi-hole" := by
  refine ⟨fun h => ?_, fun h => ?_, rfl, rfl, rfl⟩ <;>
    simp [PiHoleEntity.device_info, h]

/-- A concrete entity over a TLS-enabled client. -/
def entityTls : PiHoleEntity :=
  { api := { host := .str "1.2.3.4", session := { verify := .bool true },
             location := .str "admin", tls := .bool true,
             api_token := some (.str "deadbeef") },
    coordinator := { name := .str "Pi-hole",
                     update_method := async_update_data,
                     update_interval := MIN_TIME_BETWEEN_UPDATES },
    _name := "Pi-hole", _server_unique_id := "1.2.3.4" }

/-- C7 witness: the theorem applied at the concrete TLS entity. -/
theorem C7_witness :
    (PiHoleEntity.device_info entityTls).configuration_url =
      "https://" ++ ConfVal.pyStr entityTls.api.host ++ "/" ++
        ConfVal.pyStr entityTls.api.location ∧
    (PiHoleEntity.device_info entityTls).identifiers =
      [(DOMAIN, entityTls._server_unique_id)] ∧
    (PiHoleEntity.device_info entityTls).name = entityTls._name ∧
    (PiHoleEntity.device_info entityTls).manufacturer = "Pi-hole" :=
  ⟨(C7_device_info_deterministic entityTls).1 rfl,
   (C7_device_info_deterministic entityTls).2.2.1,
   (C7_device_info_deterministic entityTls).2.2.2.1,
   (C7_device_info_deterministic entityTls).2.2.2.2⟩

/-- When the five required keys are present and the API key is present,
`async_setup_entry` assigns to `hass.data[DOMAIN][entry.entry_id]` the
two-key mapping binding `DATA_KEY_API` to the constructed `Hole` client and
`DATA_KEY_COORDINATOR` to the constructed coordinator (whatever the first
refresh then does). -/
theorem setup_stored (data : EntryData) (env : ApiBehavior)
    (name host ssl vs loc : ConfVal)
    (hn : data CONF_NAME = some name) (hh : data CONF_HOST = some host)
    (hs : data CONF_SSL = some ssl) (hv : data CONF_VERIFY_SSL = some vs)
    (hl : data CONF_LOCATION = some loc)
    (hk : (data CONF_API_KEY).isSome) :
    (async_setup_entry data env).stored = some (fun k =>
      if k = DATA_KEY_API then
        some (.api { host := host, session := { verify := vs },
                     location := loc, tls := ssl,
                     api_token := data CONF_API_KEY })
      else if k = DATA_KEY_COORDINATOR then
        some (.coordinator { name := name,
                             update_method := async_update_data,
                             update_interval := MIN_TIME_BETWEEN_UPDATES })
      else none) := by
  have hne : CONF_API_KEY ≠ CONF_STATISTICS_ONLY := by decide
  unfold async_setup_entry
  rw [hn, hh, hs, hv, hl]
  cases hst : (data CONF_STATISTICS_ONLY).isSome <;>
    simp [hst, hne, Option.isNone_iff_eq_none,
          Option.isSome_iff_ne_none.mp hk] <;>
    cases hres : async_update_data env <;> simp [hres]

/-- C8: `async_setup_entry` creates a coordinator whose `update_method` is
`async_update_data` and whose `update_interval` is the fixed constant
`MIN_TIME_BETWEEN_UPDATES`: the stored coordinator carries exactly these two
polling parameters, so the framework timer re-runs `async_update_data` at
that fixed interval. -/
theorem C8_coordinator_polling_parameters (data : EntryData)
    (env : ApiBehavior)
    (hn : (data CONF_NAME).isSome) (hh : (data CONF_HOST).isSome)
    (hs : (data CONF_SSL).isSome) (hv : (data CONF_VERIFY_SSL).isSome)
    (hl : (data CONF_LOCATION).isSome) (hk : (data CONF_API_KEY).isSome) :
    ∃ stored : EntryStore,
      (async_setup_entry data env).stored = some stored ∧
      ∃ c : DataUpdateCoordinator,
        stored DATA_KEY_COORDINATOR = some (.coordinator c) ∧
        c.update_method = async_update_data ∧
        c.update_interval = MIN_TIME_BETWEEN_UPDATES := by
  rcases Option.isSome_iff_exists.mp hn with ⟨name, hn⟩
  rcases Option.isSome_iff_exists.mp hh with ⟨host, hh⟩
  rcases Option.isSome_iff_exists.mp hs with ⟨ssl, hs⟩
  rcases Option.isSome_iff_exists.mp hv with ⟨vs, hv⟩
  rcases Option.isSome_iff_exists.mp hl with ⟨loc, hl⟩
  exact ⟨_, setup_stored data env name host ssl vs loc hn hh hs hv hl hk,
         ⟨name, async_update_data, MIN_TIME_BETWEEN_UPDATES⟩, rfl, rfl, rfl⟩

/-- C8 witness: the theorem applied at the concrete full entry. -/
theorem C8_witness :
    ∃ stored : EntryStore,
      (async_setup_entry entryFull envAllOk).stored = some stored ∧
      ∃ c : DataUpdateCoordinator,
        stored DATA_KEY_COORDINATOR = some (.coordinator c) ∧
        c.update_method = async_update_data ∧
        c.update_interval = MIN_TIME_BETWEEN_UPDATES :=
  C8_coordinator_polling_parameters entryFull envAllOk
    (by decide) (by decide) (by decide) (by decide) (by decide) (by decide)

/-- C9: after a successful `async_setup_entry`, the mapping stored under
`hass.data[DOMAIN][entry.entry_id]` binds exactly the two keys
`DATA_KEY_API` (to the constructed `Hole` client) and `DATA_KEY_COORDINATOR`
(to the constructed coordinator), and in the effect trace the storage event
precedes the awaiting of the first refresh. -/
theorem C9_storage_shape_and_order (data : EntryData) (env : ApiBehavior)
    (hres : (async_setup_entry data env).result = .success) :
    ∃ name host ssl vs loc : ConfVal,
      data CONF_NAME = some name ∧ data CONF_HOST = some host ∧
      data CONF_SSL = some ssl ∧ data CONF_VERIFY_SSL = some vs ∧
      data CONF_LOCATION = some loc ∧
      ∃ stored : EntryStore,
        (async_setup_entry data env).stored = some stored ∧
        stored DATA_KEY_API =
          some (.api { host := host, session := { verify := vs },
                       location := loc, tls := ssl,
                       api_token := data CONF_API_KEY }) ∧
        stored DATA_KEY_COORDINATOR =
          some (.coordinator { name := name,
                               update_method := async_update_data,
                               update_interval := MIN_TIME_BETWEEN_UPDATES }) ∧
        (∀ k, (stored k).isSome →
           k = DATA_KEY_API ∨ k = DATA_KEY_COORDINATOR) ∧
        ∃ pre : List SetupEvent,
          (async_setup_entry data env).events =
            pre ++ [SetupEvent.storedData, SetupEvent.awaitedFirstRefresh,
                    SetupEvent.forwardedPlatforms] := by
  cases hn : data CONF_NAME with
  | none => simp [async_setup_entry, hn, keyErrorOutcome] at hres
  | some name =>
  cases hh : data CONF_HOST with
  | none => simp [async_setup_entry, hn, hh, keyErrorOutcome] at hres
  | some host =>
  cases hs : data CONF_SSL with
  | none => simp [async_setup_entry, hn, hh, hs, keyErrorOutcome] at hres
  | some ssl =>
  cases hv : data CONF_VERIFY_SSL with
  | none => simp [async_setup_entry, hn, hh, hs, hv, keyErrorOutcome] at hres
  | some vs =>
  cases hl : data CONF_LOCATION with
  | none =>
    simp [async_setup_entry, hn, hh, hs, hv, hl, keyErrorOutcome] at hres
  | some loc =>
  refine ⟨name, host, ssl, vs, loc, rfl, rfl, rfl, rfl, rfl, ?_⟩
  have hne : CONF_API_KEY ≠ CONF_STATISTICS_ONLY := by decide
  have hk : (data CONF_API_KEY).isSome := by
    by_contra hk
    rw [Option.isSome_iff_ne_none] at hk
    push_neg at hk
    unfold async_setup_entry at hres
    rw [hn, hh, hs, hv, hl] at hres
    cases hst : (data CONF_STATISTICS_ONLY).isSome <;>
      simp [hst, hne, hk] at hres
  refine ⟨_, setup_stored data env name host ssl vs loc hn hh hs hv hl hk,
          rfl, rfl, ?_, ?_⟩
  · intro k hksome
    by_cases h1 : k = DATA_KEY_API
    · exact Or.inl h1
    · by_cases h2 : k = DATA_KEY_COORDINATOR
      · exact Or.inr h2
      · simp [h1, h2] at hksome
  · unfold async_setup_entry at hres ⊢
    rw [hn, hh, hs, hv, hl] at hres ⊢
    cases hst : (data CONF_STATISTICS_ONLY).isSome <;>
      simp [hst, hne, Option.isNone_iff_eq_none,
            Option.isSome_iff_ne_none.mp hk] at hres ⊢ <;>
      cases hup : async_update_data env <;>
      simp [hup] at hres ⊢
    · exact ⟨[SetupEvent.createdApi], by rfl⟩
    · exact ⟨[SetupEvent.updatedEntry, SetupEvent.createdApi], by rfl⟩

/-- C9 witness: the theorem applied at the concrete full entry with an
all-successful environment, whose setup returns true. -/
theorem C9_witness :
    ∃ name host ssl vs loc : ConfVal,
      entryFull CONF_NAME = some name ∧ entryFull CONF_HOST = some host ∧
      entryFull CONF_SSL = some ssl ∧ entryFull CONF_VERIFY_SSL = some vs ∧
      entryFull CONF_LOCATION = some loc ∧
      ∃ stored : EntryStore,
        (async_setup_entry entryFull envAllOk).stored = some stored ∧
        stored DATA_KEY_API =
          some (.api { host := host, session := { verify := vs },
                       location := loc, tls := ssl,
                       api_token := entryFull CONF_API_KEY }) ∧
        stored DATA_KEY_COORDINATOR =
          some (.coordinator { name := name,
                               update_method := async_update_data,
                               update_interval := MIN_TIME_BETWEEN_UPDATES }) ∧
        (∀ k, (stored k).isSome →
           k = DATA_KEY_API ∨ k = DATA_KEY_COORDINATOR) ∧
        ∃ pre : List SetupEvent,
          (async_setup_entry entryFull envAllOk).events =
            pre ++ [SetupEvent.storedData, SetupEvent.awaitedFirstRefresh,
                    SetupEvent.forwardedPlatforms] :=
  C9_storage_shape_and_order entryFull envAllOk (by decide)

/-- A successful `async_setup_entry` forwards the entry to exactly the
module-level `PLATFORMS` list. -/
theorem setup_forwarded_success (data : EntryData) (env : ApiBehavior)
    (hres : (async_setup_entry data env).result = .success) :
    (async_setup_entry data env).forwarded = some PLATFORMS := by
  cases hn : data CONF_NAME with
  | none => simp [async_setup_entry, hn, keyErrorOutcome] at hres
  | some name =>
  cases hh : data CONF_HOST with
  | none => simp [async_setup_entry, hn, hh, keyErrorOutcome] at hres
  | some host =>
  cases hs : data CONF_SSL with
  | none => simp [async_setup_entry, hn, hh, hs, keyErrorOutcome] at hres
  | some ssl =>
  cases hv : data CONF_VERIFY_SSL with
  | none => simp [async_setup_entry, hn, hh, hs, hv, keyErrorOutcome] at hres
  | some vs =>
  cases hl : data CONF_LOCATION with
  | none =>
    simp [async_setup_entry, hn, hh, hs, hv, hl, keyErrorOutcome] at hres
  | some loc =>
  have hne : CONF_API_KEY ≠ CONF_STATISTICS_ONLY := by decide
  unfold async_setup_entry at hres ⊢
  rw [hn, hh, hs, hv, hl] at hres ⊢
  cases hst : (data CONF_STATISTICS_ONLY).isSome <;>
    simp [hst, hne] at hres ⊢ <;>
    by_cases hak : data CONF_API_KEY = none <;>
    simp [hak] at hres ⊢ <;>
    cases hup : async_update_data env <;>
    simp [hup] at hres ⊢

/-- `async_unload_entry` always passes the module-level `PLATFORMS` list to
`async_unload_platforms`. -/
theorem unload_platformsRequested (domainData : DomainData)
    (entry_id : String) (unload_ok : Bool) :
    (async_unload_entry domainData entry_id unload_ok).platformsRequested =
      PLATFORMS := by
  cases unload_ok <;> simp [async_unload_entry]
  cases h : domainData entry_id <;> simp [h]

/-- C10: setup and unload operate on the same platform list: `PLATFORMS` is
exactly the four platforms binary_sensor, sensor, switch and update;
`async_setup_entry` forwards the entry to `PLATFORMS` when it succeeds, and
`async_unload_entry` always unloads that same list. -/
theorem C10_same_platform_list :
    PLATFORMS = [Platform.binary_sensor, Platform.sensor, Platform.switch,
                 Platform.update] ∧
    (∀ (data : EntryData) (env : ApiBehavior),
       (async_setup_entry data env).result = .success →
       (async_setup_entry data env).forwarded = some PLATFORMS) ∧
    ∀ (domainData : DomainData) (entry_id : String) (unload_ok : Bool),
      (async_unload_entry domainData entry_id unload_ok).platformsRequested =
        PLATFORMS :=
  ⟨rfl, setup_forwarded_success, unload_platformsRequested⟩

/-- C10 witness: at the concrete full entry the forwarded list is
`PLATFORMS`, and a concrete unload requests the same `PLATFORMS`. -/
theorem C10_witness :
    (async_setup_entry entryFull envAllOk).forwarded = some PLATFORMS ∧
    (async_unload_entry domainDataOne "e1" true).platformsRequested =
      PLATFORMS :=
  ⟨C10_same_platform_list.2.1 entryFull envAllOk (by decide),
   C10_same_platform_list.2.2 domainDataOne "e1" true⟩
